import Mathlib

/-!
Verification of the Camera Stream Session Controller (admin.js).

The definitions below are a shallow embedding of the client-side camera
manager found in src/admin.js (and its near-duplicate src/up/admin.js,
whose HLS error handler, manifest URL and control-request logic are
identical).  Browser side effects (network requests, DOM mutation,
alerts, notifications) are reified as an explicit `Effect` list returned
next to the new state, so that every observable action of a code path is
a value the theorems can quantify over.
-/

namespace CamManager

/-- Observable side effects of the manager, one constructor per kind of
browser-visible action the source code performs. -/
inductive Effect where
  /-- the poller's `fetch` of the status endpoint (startStatusPolling) -/
  | fetchStatus : Effect
  /-- a network-level load of an HLS resource (`hls.loadSource` or the
  `hls.startLoad()` retry in the error handler) -/
  | request : String → Effect
  /-- `hls.recoverMediaError()` -/
  | recoverMedia : Effect
  /-- `hls.destroy()` in the default branch of the error handler -/
  | destroyPlayer : Effect
  /-- a `POST endpoint body` issued by handleControlAction -/
  | postRequest : String → String → Effect
  /-- a blocking `alert(message)` -/
  | alertMsg : String → Effect
  /-- `showNotification(message, type)` -/
  | notify : String → String → Effect
  /-- writing the active-camera counter in updateStatusDisplay -/
  | setCount : Nat → Effect
  /-- assigning a camera's status-indicator class in updateStatusDisplay -/
  | setIndicator : String → String → Effect
  /-- the success path of a start action invoking initVideoStream -/
  | initStream : String → Effect
  /-- the success path of a stop action invoking destroyVideoStream -/
  | destroyStream : String → Effect
deriving DecidableEq, Repr

/-- The per-camera HLS manifest URL, from initVideoStream:
`/static/hls/camera_${cameraId}/playlist.m3u8` (identical in both
admin.js variants, and also used by the Safari fallback branch). -/
def hlsUrl (cameraId : String) : String :=
  "/static/hls/camera_" ++ cameraId ++ "/playlist.m3u8"

/-- The error classification of the fatal-error switch in the
`Hls.Events.ERROR` listener: `Hls.ErrorTypes.NETWORK_ERROR`,
`Hls.ErrorTypes.MEDIA_ERROR`, and the `default` branch. -/
inductive HlsErrorType where
  | networkError : HlsErrorType
  | mediaError : HlsErrorType
  | otherError : HlsErrorType
deriving DecidableEq, Repr

/-- The state of one `Hls` player instance that initVideoStream creates.
`sourceUrl` is the URL passed to `hls.loadSource`; `destroyed` records
whether `hls.destroy()` has run; `generation` models object identity of
the `new Hls()` allocation (each call of initVideoStream creates a
distinct instance). -/
structure HlsPlayer where
  sourceUrl : String
  destroyed : Bool
  generation : Nat
deriving DecidableEq, Repr

/-- The player built by initVideoStream for a camera: a fresh `Hls`
instance whose source is the camera's manifest URL. -/
def attachPlayer (cameraId : String) (gen : Nat) : HlsPlayer :=
  { sourceUrl := hlsUrl cameraId, destroyed := false, generation := gen }

/-- The `Hls.Events.ERROR` listener of initVideoStream
(src/admin.js lines 215-233, src/up/admin.js lines 222-240): a non-fatal
error is only logged; a fatal network error triggers `hls.startLoad()`
(re-requesting the loaded source), a fatal media error triggers
`hls.recoverMediaError()`, and any other fatal error destroys the
player.  The listener keeps no counter: every fatal media error takes
the same `recoverMediaError` branch. -/
def onHlsError (p : HlsPlayer) (fatal : Bool) (t : HlsErrorType) :
    HlsPlayer × List Effect :=
  if fatal then
    match t with
    | .networkError => (p, [Effect.request p.sourceUrl])
    | .mediaError => (p, [Effect.recoverMedia])
    | .otherError => ({ p with destroyed := true }, [Effect.destroyPlayer])
  else
    (p, [])

/-- Feeding a sequence of (fatal?, type) error events to a player,
collecting every effect the error listener performs. -/
def applyErrors (p : HlsPlayer) : List (Bool × HlsErrorType) → HlsPlayer × List Effect
  | [] => (p, [])
  | (f, t) :: rest =>
    let step := onHlsError p f t
    let next := applyErrors step.1 rest
    (next.1, step.2 ++ next.2)

/-- A run of `n` consecutive fatal media errors with no intervening
successful return to playback. -/
def mediaErrs (n : Nat) : List (Bool × HlsErrorType) :=
  List.replicate n (true, HlsErrorType.mediaError)

theorem onHlsError_media (p : HlsPlayer) :
    onHlsError p true HlsErrorType.mediaError = (p, [Effect.recoverMedia]) := rfl

theorem applyErrors_mediaErrs (p : HlsPlayer) (n : Nat) :
    applyErrors p (mediaErrs n) = (p, List.replicate n Effect.recoverMedia) := by
  induction n with
  | zero => rfl
  | succ k ih =>
    simp only [mediaErrs, List.replicate_succ] at *
    simp [applyErrors, onHlsError, ih]

/-- Claim C1 counterexample: camera "1" with an attached player receives
two fatal Media errors with no intervening return to Live; the code
invokes `recoverMediaError` both times, the player is not destroyed and
the session does not reach Failed after the second Media error. -/
theorem c1_counterexample :
    applyErrors (attachPlayer "1" 0) (mediaErrs 2) =
      (attachPlayer "1" 0, [Effect.recoverMedia, Effect.recoverMedia]) ∧
    (applyErrors (attachPlayer "1" 0) (mediaErrs 2)).1.destroyed = false := by
  constructor
  · rfl
  · rfl

/-- Claim C1 (amended): for every camera session and every number `n` of
consecutive fatal Media errors with no intervening return to Live, each
Media error invokes `recoverMediaError`; the player state is unchanged
and in particular never destroyed, so the session never reaches Failed
through Media errors alone — the media recovery is unbounded, not capped
at two. -/
theorem c1_media_recovery_unbounded (cameraId : String) (gen n : Nat) :
    applyErrors (attachPlayer cameraId gen) (mediaErrs n) =
      (attachPlayer cameraId gen, List.replicate n Effect.recoverMedia) ∧
    (applyErrors (attachPlayer cameraId gen) (mediaErrs n)).1.destroyed = false := by
  refine ⟨applyErrors_mediaErrs _ n, ?_⟩
  rw [applyErrors_mediaErrs]
  rfl

/-- The manager state relevant to stream attachment: the camera list
(`this.cameras`), the set of rendered camera cards (whose
`.video-container` exists in the DOM), the per-camera active player
held by each camera's video container, and a counter modelling the
identity of the next `new Hls()` allocation. -/
structure Manager where
  cameras : List String
  containers : List String
  players : List (String × HlsPlayer)
  nextGen : Nat
deriving DecidableEq, Repr

/-- Looking up the active player of a camera's video container. -/
def lookupPlayer : List (String × HlsPlayer) → String → Option HlsPlayer
  | [], _ => none
  | (k, v) :: rest, c => if k = c then some v else lookupPlayer rest c

/-- initVideoStream (src/admin.js lines 178-258): if the camera's
`.video-container` does not exist the call returns with no effect;
otherwise the container's content is cleared (`innerHTML = ''`, removing
any previously attached video element), a fresh `Hls` instance is
created, `hls.loadSource` issues a load of the camera's manifest URL and
the new player is attached.  There is no already-attached check and no
error outcome: a second call for an active camera replaces the player. -/
def initVideoStream (m : Manager) (cameraId : String) : Manager × List Effect :=
  if cameraId ∈ m.containers then
    ({ m with
        players :=
          (cameraId, attachPlayer cameraId m.nextGen) ::
            m.players.filter (fun p => p.1 ≠ cameraId),
        nextGen := m.nextGen + 1 },
      [Effect.request (hlsUrl cameraId)])
  else
    (m, [])

/-- A concrete manager: camera "1" is rendered and has an active
(attached, not destroyed) player. -/
def m1 : Manager :=
  { cameras := ["1"], containers := ["1"],
    players := [("1", attachPlayer "1" 0)], nextGen := 1 }

/-- Claim C2 counterexample: camera "1" already has an active player,
yet calling initVideoStream again does not fail with AlreadyAttached and
does not leave the state unchanged: it mutates the manager (a fresh
player replaces the active one) and performs a new source load instead
of reporting an error. -/
theorem c2_counterexample :
    (initVideoStream m1 "1").1 ≠ m1 ∧
    (initVideoStream m1 "1").2 = [Effect.request (hlsUrl "1")] ∧
    lookupPlayer (initVideoStream m1 "1").1.players "1" = some (attachPlayer "1" 1) := by
  refine ⟨?_, rfl, ?_⟩
  · decide
  · rfl

theorem mem_map_fst_filter_ne (cameraId k : String)
    (l : List (String × HlsPlayer)) :
    k ∈ (l.filter (fun p => p.1 ≠ cameraId)).map Prod.fst →
      k ∈ l.map Prod.fst ∧ k ≠ cameraId := by
  intro hk
  rcases List.mem_map.mp hk with ⟨p, hp, hpk⟩
  rcases List.mem_filter.mp hp with ⟨hpl, hne⟩
  subst hpk
  exact ⟨List.mem_map_of_mem Prod.fst hpl, by simpa using hne⟩

theorem lookupPlayer_cons_self (cameraId : String) (p : HlsPlayer)
    (l : List (String × HlsPlayer)) :
    lookupPlayer ((cameraId, p) :: l) cameraId = some p := by
  simp [lookupPlayer]

/-- Claim C2 (amended): initVideoStream does not reject a second attach
for a camera whose player is already active — instead the old video
element is removed with the container's content and a fresh player is
attached in its place, so the per-camera uniqueness still holds: when
the per-camera player keys are distinct before the call they remain
distinct after it, and a rendered camera holds exactly the one freshly
created player. -/
theorem c2_attach_replaces (m : Manager) (cameraId : String)
    (hnd : (m.players.map Prod.fst).Nodup) :
    ((initVideoStream m cameraId).1.players.map Prod.fst).Nodup ∧
    (cameraId ∈ m.containers →
      lookupPlayer (initVideoStream m cameraId).1.players cameraId =
        some (attachPlayer cameraId m.nextGen) ∧
      ((initVideoStream m cameraId).1.players.map Prod.fst).count cameraId = 1) := by
  by_cases hc : cameraId ∈ m.containers
  · have hfilter :
        ((m.players.filter (fun p => p.1 ≠ cameraId)).map Prod.fst).Nodup :=
      List.Nodup.sublist ((List.filter_sublist m.players).map Prod.fst) hnd
    have hnotmem :
        cameraId ∉ (m.players.filter (fun p => p.1 ≠ cameraId)).map Prod.fst := by
      intro hmem
      exact (mem_map_fst_filter_ne cameraId cameraId m.players hmem).2 rfl
    constructor
    · simp only [initVideoStream, if_pos hc, List.map_cons]
      exact List.Nodup.cons hnotmem hfilter
    · intro _
      constructor
      · simp only [initVideoStream, if_pos hc]
        exact lookupPlayer_cons_self _ _ _
      · simp only [initVideoStream, if_pos hc, List.map_cons]
        rw [List.count_cons_self]
        rw [List.count_eq_zero_of_not_mem hnotmem]
  · constructor
    · simpa [initVideoStream, if_neg hc] using hnd
    · intro hmem
      exact absurd hmem hc

/-- Witness for `c2_attach_replaces` at the concrete manager `m1`. -/
theorem c2_attach_replaces_witness :
    (m1.players.map Prod.fst).Nodup ∧
    (((initVideoStream m1 "1").1.players.map Prod.fst).Nodup ∧
      ("1" ∈ m1.containers →
        lookupPlayer (initVideoStream m1 "1").1.players "1" =
          some (attachPlayer "1" m1.nextGen) ∧
        ((initVideoStream m1 "1").1.players.map Prod.fst).count "1" = 1)) :=
  ⟨by decide, c2_attach_replaces m1 "1" (by decide)⟩

theorem onHlsError_sourceUrl (p : HlsPlayer) (f : Bool) (t : HlsErrorType) :
    (onHlsError p f t).1.sourceUrl = p.sourceUrl := by
  cases f <;> cases t <;> rfl

theorem onHlsError_request (p : HlsPlayer) (f : Bool) (t : HlsErrorType)
    (u : String) (h : Effect.request u ∈ (onHlsError p f t).2) :
    u = p.sourceUrl := by
  cases f <;> cases t <;> simp_all [onHlsError]

theorem applyErrors_request (p : HlsPlayer) (errs : List (Bool × HlsErrorType))
    (u : String) (h : Effect.request u ∈ (applyErrors p errs).2) :
    u = p.sourceUrl := by
  induction errs generalizing p with
  | nil => simp [applyErrors] at h
  | cons e rest ih =>
    obtain ⟨f, t⟩ := e
    simp only [applyErrors, List.mem_append] at h
    rcases h with h | h
    · exact onHlsError_request p f t u h
    · exact (ih (onHlsError p f t).1 h).trans (onHlsError_sourceUrl p f t)

/-- Claim C9: the manifest URL is a pure function of the CameraId (it is
a Lean function of the id alone, with the literal shape
`/static/hls/camera_<id>/playlist.m3u8`), the initial attach loads exactly
this URL, and it is stable across retries: every network load the error
listener ever issues for an attached player — in particular the
`hls.startLoad()` retry after a network error — requests exactly the URL
the original attach used. -/
theorem c9_manifest_url_stable (cameraId : String) (gen : Nat)
    (errs : List (Bool × HlsErrorType)) (u : String)
    (hu : Effect.request u ∈ (applyErrors (attachPlayer cameraId gen) errs).2) :
    u = hlsUrl cameraId ∧
    hlsUrl cameraId = "/static/hls/camera_" ++ cameraId ++ "/playlist.m3u8" ∧
    ∀ m : Manager, cameraId ∈ m.containers →
      (initVideoStream m cameraId).2 = [Effect.request (hlsUrl cameraId)] := by
  refine ⟨applyErrors_request _ errs u hu, rfl, ?_⟩
  intro m hm
  simp [initVideoStream, if_pos hm]

/-- Witness for `c9_manifest_url_stable`: camera "7", one fatal network
error; the retry requests the URL the attach loaded. -/
theorem c9_manifest_url_stable_witness :
    (Effect.request (hlsUrl "7") ∈
      (applyErrors (attachPlayer "7" 0) [(true, HlsErrorType.networkError)]).2) ∧
    (hlsUrl "7" = hlsUrl "7" ∧
      hlsUrl "7" = "/static/hls/camera_" ++ "7" ++ "/playlist.m3u8" ∧
      ∀ m : Manager, "7" ∈ m.containers →
        (initVideoStream m "7").2 = [Effect.request (hlsUrl "7")]) :=
  ⟨by decide, c9_manifest_url_stable "7" 0 [(true, HlsErrorType.networkError)]
    (hlsUrl "7") (by decide)⟩

/-- Status lookup `status[camId]` of updateStatusDisplay: the parsed
`active_streams` object is modelled as an association list from camera
id to its `main` health flag. -/
def lookupStatus : List (String × Bool) → String → Option Bool
  | [], _ => none
  | (k, v) :: rest, c => if k = c then some v else lookupStatus rest c

/-- The indicator class assigned by updateStatusDisplay:
`status-dot healthy` when `camStatus?.main` is truthy, `status-dot error`
when the camera is absent from the snapshot or its flag is false. -/
def statusClass : Option Bool → String
  | some true => "status-dot healthy"
  | _ => "status-dot error"

/-- updateStatusDisplay (src/admin.js lines 165-176): writes the
active-camera count and, for every camera of `this.cameras`, assigns its
status-indicator class from the snapshot.  These DOM writes are its only
actions: it never touches a player, never issues a request and never
stops anything. -/
def updateStatusDisplay (cameras : List String) (status : List (String × Bool)) :
    List Effect :=
  Effect.setCount status.length ::
    cameras.map (fun c => Effect.setIndicator c (statusClass (lookupStatus status c)))

/-- One outcome of the poller's fetch: a parsed snapshot, or a transport
error caught by the `try/catch`. -/
inductive PollResult where
  | snapshot : List (String × Bool) → PollResult
  | transportError : PollResult
deriving DecidableEq, Repr

/-- One tick of the interval set by startStatusPolling (src/admin.js
lines 153-163): a single fetch of the status endpoint; on success the
snapshot is passed to updateStatusDisplay, on transport error a
notification is shown.  The manager state (cameras, players) is returned
unchanged in both branches, as the code mutates neither. -/
def pollTick (m : Manager) (res : PollResult) : Manager × List Effect :=
  match res with
  | .snapshot status => (m, Effect.fetchStatus :: updateStatusDisplay m.cameras status)
  | .transportError => (m, [Effect.fetchStatus, Effect.notify "Status update failed" "error"])

/-- The interval of startStatusPolling: `setInterval(..., 3000)`. -/
def pollIntervalMs : Nat := 3000

/-- Effects that are a network fetch of the status endpoint. -/
def isFetch : Effect → Bool
  | .fetchStatus => true
  | _ => false

/-- Effects that stop, destroy or force a server-side transition of a
session: removing or destroying a player, or posting a control request. -/
def isStopEffect : Effect → Bool
  | .destroyPlayer => true
  | .destroyStream _ => true
  | .postRequest _ _ => true
  | _ => false

/-- Effects that belong to the recovery machinery: a source (re)load
(`RetryLoad`) or `recoverMediaError` (`RecoverMedia`). -/
def isRecoveryEffect : Effect → Bool
  | .request _ => true
  | .recoverMedia => true
  | _ => false

theorem updateStatusDisplay_shape (cameras : List String)
    (status : List (String × Bool)) (e : Effect)
    (he : e ∈ updateStatusDisplay cameras status) :
    e = Effect.setCount status.length ∨
      ∃ c cls, e = Effect.setIndicator c cls := by
  simp only [updateStatusDisplay, List.mem_cons, List.mem_map] at he
  rcases he with h | ⟨c, _, hc⟩
  · exact Or.inl h
  · exact Or.inr ⟨c, _, hc.symm⟩

theorem setIndicator_mem (cameras : List String) (status : List (String × Bool))
    (c : String) (hc : c ∈ cameras) :
    Effect.setIndicator c (statusClass (lookupStatus status c)) ∈
      updateStatusDisplay cameras status :=
  List.mem_cons_of_mem _ (List.mem_map_of_mem _ hc)

/-- Claim C7: the status poller runs on a fixed 3000 ms interval (3 time
units of one second); every tick performs exactly one network fetch, and
a failed tick only shows the "Status update failed" notification — the
manager state, and with it every session's players, is identical before
and after the failed tick. -/
theorem c7_poll_tick_contract :
    pollIntervalMs = 3000 ∧
    (∀ (m : Manager) (res : PollResult),
      (pollTick m res).2.countP (fun e => isFetch e) = 1) ∧
    (∀ m : Manager, pollTick m PollResult.transportError =
      (m, [Effect.fetchStatus, Effect.notify "Status update failed" "error"])) := by
  refine ⟨rfl, ?_, fun _ => rfl⟩
  intro m res
  cases res with
  | transportError => rfl
  | snapshot status =>
    simp only [pollTick]
    rw [List.countP_cons_of_pos _ _ (by rfl)]
    have hzero : (updateStatusDisplay m.cameras status).countP (fun e => isFetch e) = 0 := by
      rw [List.countP_eq_zero]
      intro e he
      rcases updateStatusDisplay_shape m.cameras status e he with h | ⟨c, cls, h⟩ <;>
        subst h <;> simp [isFetch]
    rw [hzero]

/-- Claim C5: a camera present in the store but absent from the latest
snapshot gets no forced stop and no forced transition of any kind from
the reconciliation pass: the tick leaves the manager (players included)
unchanged, emits no stop/destroy/control effect at all, and merely marks
the camera's indicator with the error class. -/
theorem c5_absent_camera_no_forced_stop (m : Manager)
    (status : List (String × Bool)) (c : String)
    (hc : c ∈ m.cameras) (habs : lookupStatus status c = none) :
    (pollTick m (PollResult.snapshot status)).1 = m ∧
    (∀ e ∈ (pollTick m (PollResult.snapshot status)).2, isStopEffect e = false) ∧
    Effect.setIndicator c "status-dot error" ∈
      (pollTick m (PollResult.snapshot status)).2 := by
  refine ⟨rfl, ?_, ?_⟩
  · intro e he
    simp only [pollTick, List.mem_cons] at he
    rcases he with h | h
    · subst h; rfl
    · rcases updateStatusDisplay_shape m.cameras status e h with h | ⟨c', cls, h⟩ <;>
        subst h <;> rfl
  · have := setIndicator_mem m.cameras status c hc
    rw [habs] at this
    exact List.mem_cons_of_mem _ this

/-- Witness for `c5_absent_camera_no_forced_stop`: camera "2" is in the
store, the snapshot is empty. -/
theorem c5_absent_camera_no_forced_stop_witness :
    ("2" ∈ (Manager.mk ["2"] ["2"] [] 0).cameras ∧
      lookupStatus [] "2" = none) ∧
    ((pollTick (Manager.mk ["2"] ["2"] [] 0) (PollResult.snapshot [])).1 =
        Manager.mk ["2"] ["2"] [] 0 ∧
      (∀ e ∈ (pollTick (Manager.mk ["2"] ["2"] [] 0) (PollResult.snapshot [])).2,
        isStopEffect e = false) ∧
      Effect.setIndicator "2" "status-dot error" ∈
        (pollTick (Manager.mk ["2"] ["2"] [] 0) (PollResult.snapshot [])).2) :=
  ⟨⟨by decide, rfl⟩,
    c5_absent_camera_no_forced_stop (Manager.mk ["2"] ["2"] [] 0) [] "2"
      (by decide) rfl⟩

/-- Claim C6 counterexample: camera "2" is in the store with an active
player (the store believes it Live) and the snapshot reports it down.
The full effect list of the tick is the count write and the error-class
indicator write — no `ServerReportsDown` recovery: no RetryLoad request
and no recoverMediaError is invoked, and the manager, players included,
is unchanged, so the session is not driven into any Recovering state. -/
theorem c6_counterexample :
    pollTick (Manager.mk ["2"] ["2"] [("2", attachPlayer "2" 0)] 1)
        (PollResult.snapshot [("2", false)]) =
      (Manager.mk ["2"] ["2"] [("2", attachPlayer "2" 0)] 1,
        [Effect.fetchStatus, Effect.setCount 1,
          Effect.setIndicator "2" "status-dot error"]) ∧
    ((pollTick (Manager.mk ["2"] ["2"] [("2", attachPlayer "2" 0)] 1)
        (PollResult.snapshot [("2", false)])).2.all
      (fun e => !isRecoveryEffect e)) = true := by
  constructor
  · rfl
  · rfl

/-- Claim C6 (amended): for a store camera whose snapshot health flag is
false, the reconciliation pass only recolors that camera's status
indicator to the error class; it emits no ServerReportsDown-driven
recovery — the manager state (players included) is unchanged and neither
RetryLoad nor RecoverMedia is invoked. -/
theorem c6_down_only_recolors (m : Manager) (status : List (String × Bool))
    (c : String) (hc : c ∈ m.cameras) (hdown : lookupStatus status c = some false) :
    (pollTick m (PollResult.snapshot status)).1 = m ∧
    Effect.setIndicator c "status-dot error" ∈
      (pollTick m (PollResult.snapshot status)).2 ∧
    ∀ e ∈ (pollTick m (PollResult.snapshot status)).2, isRecoveryEffect e = false := by
  refine ⟨rfl, ?_, ?_⟩
  · have := setIndicator_mem m.cameras status c hc
    rw [hdown] at this
    exact List.mem_cons_of_mem _ this
  · intro e he
    simp only [pollTick, List.mem_cons] at he
    rcases he with h | h
    · subst h; rfl
    · rcases updateStatusDisplay_shape m.cameras status e h with h | ⟨c', cls, h⟩ <;>
        subst h <;> rfl

/-- Witness for `c6_down_only_recolors`: camera "2" Live in the store,
snapshot reports it down. -/
theorem c6_down_only_recolors_witness :
    ("2" ∈ (Manager.mk ["2"] ["2"] [("2", attachPlayer "2" 0)] 1).cameras ∧
      lookupStatus [("2", false)] "2" = some false) ∧
    ((pollTick (Manager.mk ["2"] ["2"] [("2", attachPlayer "2" 0)] 1)
        (PollResult.snapshot [("2", false)])).1 =
      Manager.mk ["2"] ["2"] [("2", attachPlayer "2" 0)] 1 ∧
    Effect.setIndicator "2" "status-dot error" ∈
      (pollTick (Manager.mk ["2"] ["2"] [("2", attachPlayer "2" 0)] 1)
        (PollResult.snapshot [("2", false)])).2 ∧
    ∀ e ∈ (pollTick (Manager.mk ["2"] ["2"] [("2", attachPlayer "2" 0)] 1)
        (PollResult.snapshot [("2", false)])).2, isRecoveryEffect e = false) :=
  ⟨⟨by decide, rfl⟩,
    c6_down_only_recolors (Manager.mk ["2"] ["2"] [("2", attachPlayer "2" 0)] 1)
      [("2", false)] "2" (by decide) rfl⟩

/-- The UI state of one camera card that handleControlAction manipulates:
the disabled flags of the start/stop buttons and whether the status
indicator carries the `active` class. -/
structure CardUI where
  startDisabled : Bool
  stopDisabled : Bool
  statusActive : Bool
deriving DecidableEq, Repr

/-- updateButtonStates (src/admin.js lines 41-60): overwrites all three
card-UI fields from `isStarted` alone (the prior UI state is not read):
the start button is disabled iff started, the stop button iff not
started, and the `active` class is toggled to `isStarted`. -/
def updateButtonStates (isStarted : Bool) : CardUI :=
  { startDisabled := isStarted, stopDisabled := !isStarted, statusActive := isStarted }

/-- The endpoint chosen by handleControlAction:
`action === 'start' ? '/api/start-streams' : '/api/stop-streams'`. -/
def controlEndpoint (action : String) : String :=
  if action = "start" then "/api/start-streams" else "/api/stop-streams"

/-- The request body `JSON.stringify({ cameras })` with
`cameras = [cameraId]`. -/
def controlBody (cameraId : String) : String :=
  "\x7b\"cameras\":[\"" ++ cameraId ++ "\"]\x7d"

/-- The failure message taken from the parsed response:
`data.message || 'Failed to control camera'` (an absent or empty
`message` field falls back to the default). -/
def errMessageOf : Option String → String
  | some s => if s = "" then "Failed to control camera" else s
  | none => "Failed to control camera"

/-- The alert text of the catch block:
`Failed to ${action} camera ${cameraId}: ${error.message}`. -/
def failAlert (action cameraId msg : String) : String :=
  "Failed to " ++ action ++ " camera " ++ cameraId ++ ": " ++ msg

/-- One resolution of the control-request fetch: a transport error (the
fetch or body parse threw), or an HTTP response with its `response.ok`
flag (true iff a 2xx status) and its optional `message` body field. -/
inductive ControlResponse where
  | transport : String → ControlResponse
  | http : Bool → Option String → ControlResponse
deriving DecidableEq, Repr

/-- handleControlAction (src/admin.js lines 62-104): posts the control
request, and only after the response resolves touches the UI — no
optimistic state is applied before resolution.  On a 2xx response the
card UI is set for the new mode and the stream is initialized or torn
down; on a non-2xx response or transport error the catch block alerts
the operator and resets the card UI with
`updateButtonStates(cameraId, action !== 'start')`. -/
def handleControlAction (cameraId action : String) (res : ControlResponse) :
    CardUI × List Effect :=
  let post := Effect.postRequest (controlEndpoint action) (controlBody cameraId)
  match res with
  | .http true _ =>
    if action = "start" then
      (updateButtonStates true, [post, Effect.initStream cameraId])
    else
      (updateButtonStates false, [post, Effect.destroyStream cameraId])
  | .http false msg =>
    (updateButtonStates (if action = "start" then false else true),
      [post, Effect.alertMsg (failAlert action cameraId (errMessageOf msg))])
  | .transport errMsg =>
    (updateButtonStates (if action = "start" then false else true),
      [post, Effect.alertMsg (failAlert action cameraId errMsg)])

/-- Whether a control-request resolution is a failure (transport error
or non-2xx status). -/
def isFailureResponse : ControlResponse → Bool
  | .http true _ => false
  | _ => true

/-- Claim C4: a failed start/stop control request (non-2xx response or
transport error) is surfaced to the operator as a user-visible alert,
and the card UI ends in the exact pre-request state: since the code
applies no optimistic UI change before the request resolves, and the
catch block resets the card to the canonical state for the action still
being available, the UI after the failure equals the UI before the
request whenever the pre-request UI was the canonical state in which the
clicked action was enabled. -/
theorem c4_control_failure_rollback (cameraId action : String) (ui : CardUI)
    (res : ControlResponse) (hfail : isFailureResponse res = true)
    (hui : updateButtonStates (if action = "start" then false else true) = ui) :
    (handleControlAction cameraId action res).1 = ui ∧
    ∃ msg, Effect.alertMsg msg ∈ (handleControlAction cameraId action res).2 := by
  cases res with
  | transport errMsg =>
    exact ⟨hui, failAlert action cameraId errMsg, by simp [handleControlAction]⟩
  | http ok msg =>
    cases ok with
    | true => simp [isFailureResponse] at hfail
    | false =>
      exact ⟨hui, failAlert action cameraId (errMessageOf msg),
        by simp [handleControlAction]⟩

/-- Witness for `c4_control_failure_rollback`: a start request for
camera "1" fails with a transport error; the card returns to the
start-enabled state it had before the click. -/
theorem c4_control_failure_rollback_witness :
    (isFailureResponse (ControlResponse.transport "network down") = true ∧
      updateButtonStates (if "start" = "start" then false else true) =
        CardUI.mk false true false) ∧
    ((handleControlAction "1" "start" (ControlResponse.transport "network down")).1 =
        CardUI.mk false true false ∧
      ∃ msg, Effect.alertMsg msg ∈
        (handleControlAction "1" "start" (ControlResponse.transport "network down")).2) :=
  ⟨⟨rfl, by decide⟩,
    c4_control_failure_rollback "1" "start" (CardUI.mk false true false)
      (ControlResponse.transport "network down") rfl (by decide)⟩

/-- Claim C8: every control action posts to the start-streams
(respectively stop-streams) endpoint with body containing exactly the
one camera id, and a non-2xx response is treated as a failure whose
message is the response body's `message` field (when that field is
present and non-empty). -/
theorem c8_control_request_contract (cameraId action m : String) (hm : m ≠ "") :
    controlEndpoint "start" = "/api/start-streams" ∧
    controlEndpoint "stop" = "/api/stop-streams" ∧
    controlBody cameraId = "\x7b\"cameras\":[\"" ++ cameraId ++ "\"]\x7d" ∧
    Effect.postRequest (controlEndpoint action) (controlBody cameraId) ∈
      (handleControlAction cameraId action (ControlResponse.http false (some m))).2 ∧
    Effect.alertMsg (failAlert action cameraId m) ∈
      (handleControlAction cameraId action (ControlResponse.http false (some m))).2 := by
  have hmsg : errMessageOf (some m) = m := by simp [errMessageOf, hm]
  refine ⟨by decide, by decide, rfl, ?_, ?_⟩
  · simp [handleControlAction]
  · simp [handleControlAction, hmsg]

/-- Witness for `c8_control_request_contract`: a stop request for
camera "3" rejected with message "boom". -/
theorem c8_control_request_contract_witness :
    ("boom" ≠ "") ∧
    (controlEndpoint "start" = "/api/start-streams" ∧
      controlEndpoint "stop" = "/api/stop-streams" ∧
      controlBody "3" = "\x7b\"cameras\":[\"" ++ "3" ++ "\"]\x7d" ∧
      Effect.postRequest (controlEndpoint "stop") (controlBody "3") ∈
        (handleControlAction "3" "stop" (ControlResponse.http false (some "boom"))).2 ∧
      Effect.alertMsg (failAlert "stop" "3" "boom") ∈
        (handleControlAction "3" "stop" (ControlResponse.http false (some "boom"))).2) :=
  ⟨by decide, c8_control_request_contract "3" "stop" "boom" (by decide)⟩

/-- createCameraCard (src/admin.js lines 279-284): appends the id to
`this.cameras` and renders the card only when the id is not already a
member; otherwise the list is untouched. -/
def createCameraCard (cameras : List String) (cameraId : String) : List String :=
  if cameraId ∈ cameras then cameras else cameras ++ [cameraId]

/-- The add-camera click handler (src/admin.js lines 32-38): trims the
input, and only a non-empty id that is not already a member reaches
createCameraCard. -/
def addCameraClick (cameras : List String) (raw : String) : List String :=
  if raw.trim ≠ "" ∧ raw.trim ∉ cameras then createCameraCard cameras raw.trim
  else cameras

/-- initialLoadCameras (src/admin.js lines 14-21): replaces the camera
list wholesale with `Object.keys(active_streams)`.  The keys of a parsed
JSON object are unique; `dedup` models that key uniqueness of the
association-list encoding. -/
def initialCameras (activeStreams : List (String × Bool)) : List String :=
  (activeStreams.map Prod.fst).dedup

theorem createCameraCard_nodup (cameras : List String) (cameraId : String)
    (h : cameras.Nodup) : (createCameraCard cameras cameraId).Nodup := by
  by_cases hid : cameraId ∈ cameras
  · simpa [createCameraCard, hid] using h
  · simp only [createCameraCard, if_neg hid]
    rw [List.nodup_append]
    exact ⟨h, List.nodup_singleton cameraId,
      fun a ha hb => hid (List.mem_singleton.mp hb ▸ ha)⟩

theorem addCameraClick_nodup (cameras : List String) (raw : String)
    (h : cameras.Nodup) : (addCameraClick cameras raw).Nodup := by
  by_cases hg : raw.trim ≠ "" ∧ raw.trim ∉ cameras
  · simp only [addCameraClick, if_pos hg]
    exact createCameraCard_nodup cameras raw.trim h
  · simpa [addCameraClick, if_neg hg] using h

theorem addCameraClick_foldl_nodup (ops : List String) (start : List String)
    (h : start.Nodup) : (ops.foldl addCameraClick start).Nodup := by
  induction ops generalizing start with
  | nil => exact h
  | cons op rest ih =>
    exact ih (addCameraClick start op) (addCameraClick_nodup start op h)

/-- Claim C10: the camera list never contains duplicates — both the
add-camera handler and createCameraCard check membership before
appending, so any sequence of operator adds starting from a
duplicate-free list keeps all entries pairwise distinct, an
already-present or empty (after trim) id leaves the list unchanged, and
the server-discovery path installs a duplicate-free list as well. -/
theorem c10_cameras_nodup (start ops cameras : List String) (raw : String)
    (activeStreams : List (String × Bool)) (hstart : start.Nodup) :
    (ops.foldl addCameraClick start).Nodup ∧
    (raw.trim = "" → addCameraClick cameras raw = cameras) ∧
    (raw.trim ∈ cameras → addCameraClick cameras raw = cameras) ∧
    (raw.trim ∈ cameras → createCameraCard cameras raw.trim = cameras) ∧
    (initialCameras activeStreams).Nodup := by
  refine ⟨addCameraClick_foldl_nodup ops start hstart, ?_, ?_, ?_, ?_⟩
  · intro hempty
    simp [addCameraClick, hempty]
  · intro hmem
    simp [addCameraClick, hmem]
  · intro hmem
    simp [createCameraCard, hmem]
  · exact (activeStreams.map Prod.fst).nodup_dedup

/-- Witness for `c10_cameras_nodup`: adds of "1" twice, a blank id and
"2" starting from the empty list. -/
theorem c10_cameras_nodup_witness :
    ([] : List String).Nodup ∧
    ((["1", "1", " ", "2"].foldl addCameraClick []).Nodup ∧
      ("1".trim = "" → addCameraClick ["1"] "1" = ["1"]) ∧
      ("1".trim ∈ ["1"] → addCameraClick ["1"] "1" = ["1"]) ∧
      ("1".trim ∈ ["1"] → createCameraCard ["1"] "1".trim = ["1"]) ∧
      (initialCameras [("1", true), ("2", false)]).Nodup) :=
  ⟨List.nodup_nil,
    c10_cameras_nodup [] ["1", "1", " ", "2"] ["1"] "1"
      [("1", true), ("2", false)] List.nodup_nil⟩

/-- The session states of the spec's §4.1 state machine. -/
inductive SessionState where
  | idle | starting | live | recovering | stopping | stopped | failed
deriving DecidableEq, Repr

/-- The classified player-error kinds of the spec's Recovery Policy. -/
inductive ErrorKind where
  | network | media | fatal
deriving DecidableEq, Repr

/-- The events accepted by the spec's Session Store transition
function. -/
inductive SessionEvent where
  | requestStart
  | requestStop
  | playerAttached
  | playerError : ErrorKind → SessionEvent
  | recoveryExhausted
  | serverReportsDown
  | serverReportsUp
deriving DecidableEq, Repr

/-- The error outcome of an event not valid for the current state. -/
inductive TransitionError where
  | invalidTransition
deriving DecidableEq, Repr

/-- A per-camera session record of the spec's Session Store. -/
structure SessionRecord where
  cameraId : String
  state : SessionState
  retryCount : Nat
  playerHandle : Option Nat
deriving DecidableEq, Repr

/-- The pairs of current state and event that the §4.1 transition table
lists as valid: the nine table rows, with `RequestStop` accepted from
every non-Idle state and `RequestStart` additionally accepted from
`Failed` (the spec names `Failed` recoverable only via a fresh
`RequestStart`). -/
def validEvent (s : SessionState) (e : SessionEvent) : Bool :=
  match s, e with
  | .idle, .requestStart => true
  | .failed, .requestStart => true
  | .starting, .playerAttached => true
  | .starting, .playerError .fatal => true
  | .live, .playerError .network => true
  | .live, .playerError .media => true
  | .live, .serverReportsDown => true
  | .recovering, .playerAttached => true
  | .recovering, .recoveryExhausted => true
  | .starting, .requestStop => true
  | .live, .requestStop => true
  | .recovering, .requestStop => true
  | .stopping, .requestStop => true
  | .stopped, .requestStop => true
  | .failed, .requestStop => true
  | _, _ => false

/-- Modelled from the spec: the Session Store `transition` function of
§4.1 is absent from the source (the repository ships no session state
machine; src/admin.js drives the player directly), so it is modelled
from the spec's transition table.  `fresh` is the player handle acquired
on a start; a successful transition into `Live` resets `retryCount`;
releasing the handle clears `playerHandle`; an event not valid for the
current state yields `InvalidTransition`. -/
def transition (fresh : Nat) (r : SessionRecord) (e : SessionEvent) :
    Except TransitionError SessionRecord :=
  match r.state, e with
  | .idle, .requestStart =>
    .ok { r with state := .starting, playerHandle := some fresh }
  | .failed, .requestStart =>
    .ok { r with state := .starting, retryCount := 0, playerHandle := some fresh }
  | .starting, .playerAttached => .ok { r with state := .live, retryCount := 0 }
  | .starting, .playerError .fatal =>
    .ok { r with state := .failed, playerHandle := none }
  | .live, .playerError .network => .ok { r with state := .recovering }
  | .live, .playerError .media => .ok { r with state := .recovering }
  | .live, .serverReportsDown => .ok { r with state := .recovering }
  | .recovering, .playerAttached => .ok { r with state := .live, retryCount := 0 }
  | .recovering, .recoveryExhausted =>
    .ok { r with state := .failed, playerHandle := none }
  | .starting, .requestStop => .ok { r with state := .stopped, playerHandle := none }
  | .live, .requestStop => .ok { r with state := .stopped, playerHandle := none }
  | .recovering, .requestStop => .ok { r with state := .stopped, playerHandle := none }
  | .stopping, .requestStop => .ok { r with state := .stopped, playerHandle := none }
  | .stopped, .requestStop => .ok { r with state := .stopped, playerHandle := none }
  | .failed, .requestStop => .ok { r with state := .stopped, playerHandle := none }
  | _, _ => .error .invalidTransition

/-- The Session Store applying one event: on success the record is
replaced, on failure the stored record stays in place and the error is
reported. -/
def recordTransition (fresh : Nat) (r : SessionRecord) (e : SessionEvent) :
    SessionRecord × Option TransitionError :=
  match transition fresh r e with
  | .ok next => (next, none)
  | .error err => (r, some err)

/-- Replaying the same event against the stored record `n` times. -/
def replayEvent (fresh : Nat) (e : SessionEvent) : Nat → SessionRecord → SessionRecord
  | 0, r => r
  | n + 1, r => replayEvent fresh e n (recordTransition fresh r e).1

theorem transition_invalid_iff (fresh : Nat) (r : SessionRecord) (e : SessionEvent) :
    transition fresh r e = .error .invalidTransition ↔ validEvent r.state e = false := by
  rcases r with ⟨cid, s, rc, ph⟩
  cases s <;> cases e <;>
    first
      | (rename_i k; cases k <;> simp [transition, validEvent])
      | simp [transition, validEvent]

/-- Claim C3: an event not valid for the record's current state makes
`transition` fail with `InvalidTransition` and leaves the stored record
completely unchanged — state, retryCount and playerHandle all keep
their prior values — and replaying the same invalid event any number of
times also changes nothing. -/
theorem c3_invalid_event_no_mutation (fresh : Nat) (r : SessionRecord)
    (e : SessionEvent) (hinv : validEvent r.state e = false) :
    recordTransition fresh r e = (r, some TransitionError.invalidTransition) ∧
    (recordTransition fresh r e).1.state = r.state ∧
    (recordTransition fresh r e).1.retryCount = r.retryCount ∧
    (recordTransition fresh r e).1.playerHandle = r.playerHandle ∧
    ∀ n, replayEvent fresh e n r = r := by
  have herr : transition fresh r e = .error .invalidTransition :=
    (transition_invalid_iff fresh r e).mpr hinv
  have h1 : recordTransition fresh r e = (r, some TransitionError.invalidTransition) := by
    simp [recordTransition, herr]
  refine ⟨h1, by rw [h1], by rw [h1], by rw [h1], ?_⟩
  intro n
  induction n with
  | zero => rfl
  | succ k ih => simp [replayEvent, h1, ih]

/-- Witness for `c3_invalid_event_no_mutation`: `PlayerAttached` is not
valid in `Idle`; replaying it thrice changes nothing. -/
theorem c3_invalid_event_no_mutation_witness :
    validEvent (SessionRecord.mk "1" SessionState.idle 0 none).state
      SessionEvent.playerAttached = false ∧
    (recordTransition 5 (SessionRecord.mk "1" SessionState.idle 0 none)
        SessionEvent.playerAttached =
      (SessionRecord.mk "1" SessionState.idle 0 none,
        some TransitionError.invalidTransition) ∧
    (recordTransition 5 (SessionRecord.mk "1" SessionState.idle 0 none)
        SessionEvent.playerAttached).1.state =
      (SessionRecord.mk "1" SessionState.idle 0 none).state ∧
    (recordTransition 5 (SessionRecord.mk "1" SessionState.idle 0 none)
        SessionEvent.playerAttached).1.retryCount =
      (SessionRecord.mk "1" SessionState.idle 0 none).retryCount ∧
    (recordTransition 5 (SessionRecord.mk "1" SessionState.idle 0 none)
        SessionEvent.playerAttached).1.playerHandle =
      (SessionRecord.mk "1" SessionState.idle 0 none).playerHandle ∧
    ∀ n, replayEvent 5 SessionEvent.playerAttached n
      (SessionRecord.mk "1" SessionState.idle 0 none) =
      SessionRecord.mk "1" SessionState.idle 0 none) :=
  ⟨rfl, c3_invalid_event_no_mutation 5
    (SessionRecord.mk "1" SessionState.idle 0 none) SessionEvent.playerAttached rfl⟩

end CamManager
